import Mathlib

/-!
Verification of the FACEATTEND embedding-matching core.

The definitions below are shallow embeddings of the Python sources of the
auto-attendance-system repository:

* `listDot`, `norm2`, `cosineRaw`, `simMatrix` — the numpy dot product,
  `np.linalg.norm`, and the inline cosine similarity of the `/compare`
  endpoint (`ai_service/main.py`, `compare_faces`).
* `bestMatchAux`, `bestMatch`, `resolveMatches`, `resolveReport` — the greedy
  per-face matching loop of `compare_faces` (the inner best-candidate scan
  starting from `best_match_idx = -1`, `best_similarity = -1.0`, strict `>`
  updates, threshold gate, matched-students set, confidence rounded to four
  decimal places).  The resolver is stated over an arbitrary linearly ordered
  field so that it can be executed at `ℚ` and instantiated at `ℝ`.
* `compare_faces` — the validation and matching pipeline of the endpoint on
  real-valued (finite) embeddings.
* `FloatVal`, `validate_embedding`, `compare_faces_checks`, `np_cosine` — a
  value type distinguishing non-finite floats, the unused validator of
  `ai_service/app/utils/similarity.py`, the validation prefix of the endpoint,
  and the inline cosine with IEEE division-by-zero results made explicit.
* `Utils.calculate_cosine_similarity` — the zero-guarded scorer of
  `ai-service/utils.py`.
* `AppSim.calculate_cosine_similarity`, `AppSim.euclidean_distance`,
  `AppSim.find_best_matches`, `AppSim.FaceMatchingConfig` — the utilities of
  `ai_service/app/utils/similarity.py`.
-/

set_option maxHeartbeats 1600000

namespace FaceAttend

/-- Sum of pairwise products of two real vectors; `np.dot` on equal-length
embedding vectors (extra trailing entries of the longer list are ignored,
which never happens on the validated paths). -/
def listDot : List ℝ → List ℝ → ℝ
  | x :: xs, y :: ys => x * y + listDot xs ys
  | _, _ => 0

/-- Euclidean norm of a vector, `np.linalg.norm`: the square root of the sum
of squares. -/
noncomputable def norm2 (a : List ℝ) : ℝ :=
  Real.sqrt (listDot a a)

/-- The inline similarity of `compare_faces` in `ai_service/main.py`:
`np.dot(d, r) / (np.linalg.norm(d) * np.linalg.norm(r))`.  Division by a zero
denominator is the zero-norm corner; `np_cosine` below makes the IEEE result
of that corner explicit, while here Lean's division convention yields `0`. -/
noncomputable def cosineRaw (a b : List ℝ) : ℝ :=
  listDot a b / (norm2 a * norm2 b)

/-- The matrix of inline similarities computed by the comparison loop of
`compare_faces`: one row per detected embedding, one column per reference
embedding. -/
noncomputable def simMatrix (detected reference : List (List ℝ)) : List (List ℝ) :=
  detected.map (fun d => reference.map (fun r => cosineRaw d r))

section Resolver

variable {α : Type} [LinearOrderedField α] [FloorRing α]

/-- The inner best-candidate scan of `compare_faces`: starting from
`best_match_idx = -1`, `best_similarity = -1.0`, replace the best candidate
whenever `similarity > best_similarity` (strict, so the first maximum wins on
ties, as `np.argmax` does in `ai-service/main.py`). -/
def bestMatchAux : List α → ℕ → ℤ × α → ℤ × α
  | [], _, best => best
  | s :: rest, idx, best =>
    if best.2 < s then bestMatchAux rest (idx + 1) ((idx : ℤ), s)
    else bestMatchAux rest (idx + 1) best

/-- Best candidate (index, similarity) for one row of the similarity matrix. -/
def bestMatch (row : List α) : ℤ × α :=
  bestMatchAux row 0 (-1, -1)

/-- Python's `round(x, 4)`: the similarity rounded to four decimal places
before it is stored in the response (`ai_service/main.py`).  Exact halves are
modelled with round-half-up instead of round-half-to-even; no statement below
depends on an exact half. -/
def round4 (x : α) : α :=
  ((round (x * 10000) : ℤ) : α) / 10000

/-- Python list indexing as used on `student_ids`: a nonnegative index reads
from the front, a negative index reads from the end. -/
def pyGet (ids : List String) (i : ℤ) : String :=
  if 0 ≤ i then ids.getD i.toNat "" else ids.getD (ids.length - (-i).toNat) ""

/-- One accepted match of the response: `{"studentId": …, "confidence": …,
"faceIndex": …}`. -/
structure MatchAssignment (α : Type) where
  studentId : String
  confidence : α
  faceIndex : ℕ
deriving DecidableEq

/-- The greedy matching loop of `compare_faces`: faces are processed in
ascending index order; a face is assigned its best candidate exactly when the
best similarity reaches the threshold and that student has not been consumed
by an earlier face; otherwise the face receives nothing. -/
def resolveMatches (ids : List String) (τ : α) :
    List (List α) → ℕ → List String → List (MatchAssignment α)
  | [], _, _ => []
  | row :: rest, k, matched =>
    if τ ≤ (bestMatch row).2 ∧ pyGet ids (bestMatch row).1 ∉ matched then
      ⟨pyGet ids (bestMatch row).1, round4 (bestMatch row).2, k⟩ ::
        resolveMatches ids τ rest (k + 1) (pyGet ids (bestMatch row).1 :: matched)
    else resolveMatches ids τ rest (k + 1) matched

/-- The aggregate response of `compare_faces`: matches, `totalMatches`,
`unmatchedFaces = len(detected) - len(matches)`, the number of detected
embeddings, and the threshold used. -/
structure Report (α : Type) where
  matchList : List (MatchAssignment α)
  totalMatches : ℕ
  unmatchedFaces : ℤ
  totalDetected : ℕ
  threshold : α
deriving DecidableEq

/-- Assemble the reconciliation report from a similarity matrix, as the tail
of `compare_faces` does. -/
def resolveReport (sims : List (List α)) (ids : List String) (τ : α) : Report α :=
  ⟨resolveMatches ids τ sims 0 [],
   (resolveMatches ids τ sims 0 []).length,
   (sims.length : ℤ) - (resolveMatches ids τ sims 0 []).length,
   sims.length, τ⟩

end Resolver

/-- The error conditions raised by `compare_faces` before any similarity is
computed.  The source raises no other error kind from the matching stage; in
particular there is no invalid-embedding condition. -/
inductive CompareError
  | missingInput
  | inputLengthMismatch
  | dimensionMismatch (detectedDim referenceDim : ℕ)
deriving DecidableEq

/-- The `/compare` endpoint of `ai_service/main.py` on finite real-valued
embeddings: reject a missing roster, a roster/ids length mismatch, report an
empty result for an empty detected set, reject mismatched embedding
dimensions (read off the first embedding of each side), and otherwise run the
greedy matcher over the similarity matrix. -/
noncomputable def compare_faces (detected reference : List (List ℝ))
    (ids : List String) (τ : ℝ) : Except CompareError (Report ℝ) :=
  if reference.isEmpty || ids.isEmpty then .error .missingInput
  else if reference.length ≠ ids.length then .error .inputLengthMismatch
  else if detected.isEmpty then .ok ⟨[], 0, 0, 0, τ⟩
  else if detected.headI.length ≠ reference.headI.length then
    .error (.dimensionMismatch detected.headI.length reference.headI.length)
  else .ok (resolveReport (simMatrix detected reference) ids τ)

/-- A floating-point value as seen by the validators: a finite real number or
one of the non-finite IEEE values (NaN, plus or minus infinity). -/
inductive FloatVal
  | finite (x : ℝ)
  | nan
  | inf
  | ninf

/-- Whether a value is finite; `np.isfinite` on one entry. -/
def FloatVal.isFinite : FloatVal → Bool
  | .finite _ => true
  | _ => false

/-- The validation prefix of `compare_faces`, stated over embeddings whose
entries may be non-finite: the endpoint checks only presence of the roster and
ids, their common length, emptiness of the detected set, and the dimensions of
the first embedding on each side.  It inspects no embedding value, so the
checks are oblivious to NaN or infinite entries, and no invalid-embedding
error exists in `CompareError`. -/
def compare_faces_checks (detected reference : List (List FloatVal))
    (ids : List String) : Option CompareError :=
  if reference.isEmpty || ids.isEmpty then some .missingInput
  else if reference.length ≠ ids.length then some .inputLengthMismatch
  else if detected.isEmpty then none
  else if detected.headI.length ≠ reference.headI.length then
    some (.dimensionMismatch detected.headI.length reference.headI.length)
  else none

/-- The inline similarity of `compare_faces` with the IEEE result of a zero
denominator made explicit: on finite inputs numpy returns
`dot / (norm * norm)` as a finite float unless the denominator is zero, in
which case the quotient is NaN (for a zero numerator) or a signed infinity. -/
noncomputable def np_cosine (a b : List ℝ) : FloatVal :=
  if norm2 a * norm2 b = 0 then
    if listDot a b = 0 then .nan
    else if 0 < listDot a b then .inf else .ninf
  else .finite (listDot a b / (norm2 a * norm2 b))

namespace Utils

/-- `calculate_cosine_similarity` of `ai-service/utils.py`: cosine similarity
with an explicit zero-norm guard returning `0.0`. -/
noncomputable def calculate_cosine_similarity (embedding1 embedding2 : List ℝ) : ℝ :=
  if norm2 embedding1 = 0 ∨ norm2 embedding2 = 0 then 0
  else listDot embedding1 embedding2 / (norm2 embedding1 * norm2 embedding2)

end Utils

namespace AppSim

/-- sklearn's `cosine_similarity` on a pair of rows: it normalizes each row,
mapping a zero row to the zero row, so a zero-norm input yields similarity
`0` and otherwise the usual quotient is produced. -/
noncomputable def sklearn_cosine (a b : List ℝ) : ℝ :=
  if norm2 a = 0 ∨ norm2 b = 0 then 0
  else listDot a b / (norm2 a * norm2 b)

/-- `calculate_cosine_similarity` of `ai_service/app/utils/similarity.py`:
the sklearn cosine similarity followed by `max(0, min(1, similarity))`. -/
noncomputable def calculate_cosine_similarity (embedding1 embedding2 : List ℝ) : ℝ :=
  max 0 (min 1 (sklearn_cosine embedding1 embedding2))

/-- `euclidean_distance` of `ai_service/app/utils/similarity.py`:
`np.linalg.norm(embedding1 - embedding2)`. -/
noncomputable def euclidean_distance (embedding1 embedding2 : List ℝ) : ℝ :=
  Real.sqrt (((List.zipWith (fun x y => x - y) embedding1 embedding2).map
    (fun d => d ^ 2)).sum)

/-- `find_best_matches` of `ai_service/app/utils/similarity.py`: score the
query against every database embedding (cosine by default, otherwise the
inverse-distance transform of the euclidean branch), pair each score with the
corresponding student id, sort by score descending (Python's stable sort with
`reverse=True`), and keep the first `top_k`.  An empty database returns the
empty list, and a `student_ids` list shorter than the database raises an
`IndexError` that the surrounding handler converts to the empty list. -/
noncomputable def find_best_matches (query_embedding : List ℝ)
    (database_embeddings : List (List ℝ)) (student_ids : List String)
    (top_k : ℕ) (method : String) : List (String × ℝ) :=
  if database_embeddings.isEmpty then []
  else if student_ids.length < database_embeddings.length then []
  else
    ((List.zipWith (fun sid emb =>
        (sid, if method = "cosine" then calculate_cosine_similarity query_embedding emb
              else 1 / (1 + euclidean_distance query_embedding emb)))
      student_ids database_embeddings).mergeSort
        (fun x y => decide (y.2 ≤ x.2))).take top_k

/-- `validate_embedding` of `ai_service/app/utils/similarity.py`: an embedding
is accepted exactly when its shape is `(expected_dim,)` and every entry is
finite (`np.isfinite(embedding).all()`); the norm check only logs a warning
and never changes the result. -/
def validate_embedding (embedding : List FloatVal) (expected_dim : ℕ) : Bool :=
  (embedding.length == expected_dim) && embedding.all FloatVal.isFinite

namespace FaceMatchingConfig

/-- Recognition threshold above which a score is reported as `Present`. -/
noncomputable def HIGH_CONFIDENCE_THRESHOLD : ℝ := 0.85

/-- Recognition threshold above which a score is reported as `Uncertain`. -/
noncomputable def MEDIUM_CONFIDENCE_THRESHOLD : ℝ := 0.70

/-- Recognition threshold above which a score is reported as `Low_Confidence`. -/
noncomputable def LOW_CONFIDENCE_THRESHOLD : ℝ := 0.60

/-- `FaceMatchingConfig.get_status_from_confidence`: the four-tier attendance
status derived from a similarity score. -/
noncomputable def get_status_from_confidence (confidence : ℝ) : String :=
  if HIGH_CONFIDENCE_THRESHOLD ≤ confidence then "Present"
  else if MEDIUM_CONFIDENCE_THRESHOLD ≤ confidence then "Uncertain"
  else if LOW_CONFIDENCE_THRESHOLD ≤ confidence then "Low_Confidence"
  else "Not_Recognized"

end FaceMatchingConfig

end AppSim

section ResolverLemmas

variable {α : Type} [LinearOrderedField α] [FloorRing α] {ids : List String} {τ : α}

theorem mem_resolveMatches_faceIndex {rows : List (List α)} {k : ℕ}
    {matched : List String} {m : MatchAssignment α}
    (h : m ∈ resolveMatches ids τ rows k matched) :
    k ≤ m.faceIndex ∧ m.faceIndex < k + rows.length := by
  induction rows generalizing k matched with
  | nil => simp [resolveMatches] at h
  | cons row rest ih =>
    rw [resolveMatches] at h
    split at h
    · rcases List.mem_cons.1 h with h1 | h1
      · subst h1; simp
      · have := ih h1
        simp only [List.length_cons]
        omega
    · have := ih h
      simp only [List.length_cons]
      omega

theorem resolveMatches_pairwise_faceIndex (rows : List (List α)) (k : ℕ)
    (matched : List String) :
    (resolveMatches ids τ rows k matched).Pairwise
      (fun m m' => m.faceIndex < m'.faceIndex) := by
  induction rows generalizing k matched with
  | nil => simp [resolveMatches]
  | cons row rest ih =>
    rw [resolveMatches]
    split
    · refine List.Pairwise.cons ?_ (ih (k + 1) _)
      intro m' hm'
      have := (mem_resolveMatches_faceIndex hm').1
      simp only
      omega
    · exact ih (k + 1) matched

theorem mem_resolveMatches_studentId {rows : List (List α)} {k : ℕ}
    {matched : List String} {m : MatchAssignment α}
    (h : m ∈ resolveMatches ids τ rows k matched) :
    m.studentId ∉ matched := by
  induction rows generalizing k matched with
  | nil => simp [resolveMatches] at h
  | cons row rest ih =>
    rw [resolveMatches] at h
    split at h
    case isTrue hcond =>
      rcases List.mem_cons.1 h with h1 | h1
      · subst h1; exact hcond.2
      · intro hmem
        exact ih h1 (List.mem_cons_of_mem _ hmem)
    case isFalse => exact ih h

theorem resolveMatches_pairwise_studentId (rows : List (List α)) (k : ℕ)
    (matched : List String) :
    (resolveMatches ids τ rows k matched).Pairwise
      (fun m m' => m.studentId ≠ m'.studentId) := by
  induction rows generalizing k matched with
  | nil => simp [resolveMatches]
  | cons row rest ih =>
    rw [resolveMatches]
    split
    · refine List.Pairwise.cons ?_ (ih (k + 1) _)
      intro m' hm'
      have h2 := mem_resolveMatches_studentId hm'
      simp only
      intro heq
      rw [← heq] at h2
      exact h2 (List.mem_cons_self _ _)
    · exact ih (k + 1) matched

theorem resolveMatches_length_le (rows : List (List α)) (k : ℕ)
    (matched : List String) :
    (resolveMatches ids τ rows k matched).length ≤ rows.length := by
  induction rows generalizing k matched with
  | nil => simp [resolveMatches]
  | cons row rest ih =>
    rw [resolveMatches]
    split
    · simpa using Nat.succ_le_succ (ih (k + 1) _)
    · exact le_trans (ih (k + 1) matched) (by simp)

theorem mem_resolveMatches_confidence {rows : List (List α)} {k : ℕ}
    {matched : List String} {m : MatchAssignment α}
    (h : m ∈ resolveMatches ids τ rows k matched) :
    ∃ s : α, τ ≤ s ∧ m.confidence = round4 s := by
  induction rows generalizing k matched with
  | nil => simp [resolveMatches] at h
  | cons row rest ih =>
    rw [resolveMatches] at h
    split at h
    case isTrue hcond =>
      rcases List.mem_cons.1 h with h1 | h1
      · exact ⟨(bestMatch row).2, hcond.1, by rw [h1]⟩
      · exact ih h1
    case isFalse => exact ih h

theorem resolveMatches_skip {matched : List String} {row : List α}
    {rest : List (List α)} {k : ℕ}
    (h : (bestMatch row).2 < τ ∨ pyGet ids (bestMatch row).1 ∈ matched) :
    resolveMatches ids τ (row :: rest) k matched
      = resolveMatches ids τ rest (k + 1) matched := by
  rw [resolveMatches, if_neg]
  rintro ⟨h1, h2⟩
  rcases h with h | h
  · exact absurd h1 (not_le.2 h)
  · exact h2 h

theorem round4_bound (x : α) : |round4 x - x| ≤ 1 / 20000 := by
  have h := abs_sub_round (x * 10000)
  have h2 : round4 x - x = -((x * 10000 - ((round (x * 10000) : ℤ) : α)) / 10000) := by
    rw [round4]; field_simp; ring
  rw [h2, abs_neg, abs_div, abs_of_pos (by norm_num : (0:α) < 10000)]
  calc |x * 10000 - ((round (x * 10000) : ℤ) : α)| / 10000
      ≤ (1 / 2) / 10000 := by gcongr
    _ = 1 / 20000 := by norm_num

end ResolverLemmas

theorem listDot_self_nonneg (a : List ℝ) : 0 ≤ listDot a a := by
  induction a with
  | nil => simp [listDot]
  | cons x xs ih =>
    simp only [listDot]
    have := mul_self_nonneg x
    linarith

theorem listDot_sq_le (a b : List ℝ) :
    (listDot a b) ^ 2 ≤ listDot a a * listDot b b := by
  induction a generalizing b with
  | nil => simp [listDot]
  | cons x xs ih =>
    cases b with
    | nil => simp [listDot]
    | cons y ys =>
      simp only [listDot]
      have hA := listDot_self_nonneg xs
      have hB := listDot_self_nonneg ys
      have hIH := ih ys
      rcases eq_or_lt_of_le hB with hB0 | hBpos
      · have hd2 : listDot xs ys ^ 2 ≤ 0 := by nlinarith
        have hd : listDot xs ys = 0 :=
          pow_eq_zero_iff two_ne_zero |>.1 (le_antisymm hd2 (sq_nonneg _))
        rw [hd, ← hB0]
        nlinarith [mul_nonneg hA (mul_self_nonneg y)]
      · nlinarith [sq_nonneg (x * listDot ys ys - y * listDot xs ys),
          mul_nonneg (add_nonneg (mul_self_nonneg y) hB) (sub_nonneg.2 hIH), hBpos]

theorem norm2_nonneg (a : List ℝ) : 0 ≤ norm2 a := Real.sqrt_nonneg _

theorem norm2_eq_zero_iff (a : List ℝ) : norm2 a = 0 ↔ listDot a a = 0 := by
  rw [norm2, Real.sqrt_eq_zero']
  exact ⟨fun h => le_antisymm h (listDot_self_nonneg a), fun h => le_of_eq h⟩

theorem abs_listDot_le (a b : List ℝ) : |listDot a b| ≤ norm2 a * norm2 b := by
  rw [norm2, norm2, ← Real.sqrt_mul (listDot_self_nonneg a)]
  rw [show |listDot a b| = Real.sqrt ((listDot a b) ^ 2) by rw [Real.sqrt_sq_eq_abs]]
  exact Real.sqrt_le_sqrt (listDot_sq_le a b)

theorem listDot_eq_zero_left {a b : List ℝ} (h : norm2 a = 0) : listDot a b = 0 := by
  have hA : listDot a a = 0 := (norm2_eq_zero_iff a).1 h
  have hle := listDot_sq_le a b
  rw [hA, zero_mul] at hle
  have h2 : (listDot a b) ^ 2 = 0 := le_antisymm hle (sq_nonneg _)
  exact pow_eq_zero_iff (two_ne_zero) |>.1 h2

theorem listDot_eq_zero_right {a b : List ℝ} (h : norm2 b = 0) : listDot a b = 0 := by
  have hB : listDot b b = 0 := (norm2_eq_zero_iff b).1 h
  have hle := listDot_sq_le a b
  rw [hB, mul_zero] at hle
  have h2 : (listDot a b) ^ 2 = 0 := le_antisymm hle (sq_nonneg _)
  exact pow_eq_zero_iff (two_ne_zero) |>.1 h2

theorem round4_one : round4 (1 : ℝ) = 1 := by
  rw [round4, show (1:ℝ) * 10000 = 10000 by norm_num,
    show round (10000 : ℝ) = 10000 by rw [round_eq]; exact Int.floor_eq_iff.2 (by norm_num)]
  norm_num

theorem round4_8485 : round4 ((84 : ℝ) / 85) = 4941 / 5000 := by
  rw [round4, show round ((84:ℝ)/85 * 10000) = 9882 by
    rw [round_eq]; exact Int.floor_eq_iff.2 (by norm_num)]
  norm_num

theorem norm2_e1 : norm2 [(1:ℝ), 0] = 1 := by
  rw [norm2, show listDot [(1:ℝ), 0] [(1:ℝ), 0] = 1 by simp [listDot], Real.sqrt_one]

theorem norm2_e2 : norm2 [(0:ℝ), 1] = 1 := by
  rw [norm2, show listDot [(0:ℝ), 1] [(0:ℝ), 1] = 1 by simp [listDot], Real.sqrt_one]

theorem norm2_34 : norm2 [(3:ℝ), 4] = 5 := by
  rw [norm2, show listDot [(3:ℝ), 4] [(3:ℝ), 4] = 25 by simp [listDot]; norm_num,
    show (25:ℝ) = 5 ^ 2 by norm_num, Real.sqrt_sq (by norm_num : (0:ℝ) ≤ 5)]

theorem norm2_815 : norm2 [(8:ℝ), 15] = 17 := by
  rw [norm2, show listDot [(8:ℝ), 15] [(8:ℝ), 15] = 289 by simp [listDot]; norm_num,
    show (289:ℝ) = 17 ^ 2 by norm_num, Real.sqrt_sq (by norm_num : (0:ℝ) ≤ 17)]

theorem compare_faces_evalA :
    compare_faces [[1, 0], [0, 1]] [[1, 0], [0, 1]] ["S1", "S2"] ((3:ℝ)/5)
      = .ok ⟨[⟨"S1", 1, 0⟩, ⟨"S2", 1, 1⟩], 2, 0, 2, 3/5⟩ := by
  have hc11 : cosineRaw [(1:ℝ), 0] [(1:ℝ), 0] = 1 := by
    rw [cosineRaw, norm2_e1, show listDot [(1:ℝ), 0] [(1:ℝ), 0] = 1 by simp [listDot]]
    norm_num
  have hc12 : cosineRaw [(1:ℝ), 0] [(0:ℝ), 1] = 0 := by
    rw [cosineRaw, show listDot [(1:ℝ), 0] [(0:ℝ), 1] = 0 by simp [listDot]]
    norm_num
  have hc21 : cosineRaw [(0:ℝ), 1] [(1:ℝ), 0] = 0 := by
    rw [cosineRaw, show listDot [(0:ℝ), 1] [(1:ℝ), 0] = 0 by simp [listDot]]
    norm_num
  have hc22 : cosineRaw [(0:ℝ), 1] [(0:ℝ), 1] = 1 := by
    rw [cosineRaw, norm2_e2, show listDot [(0:ℝ), 1] [(0:ℝ), 1] = 1 by simp [listDot]]
    norm_num
  have hm : simMatrix [[(1:ℝ), 0], [0, 1]] [[(1:ℝ), 0], [0, 1]] = [[1, 0], [0, 1]] := by
    simp [simMatrix, hc11, hc12, hc21, hc22]
  have hb1 : bestMatch [(1:ℝ), 0] = (0, 1) := by
    simp only [bestMatch, bestMatchAux]
    norm_num
  have hb2 : bestMatch [(0:ℝ), 1] = (1, 1) := by
    simp only [bestMatch, bestMatchAux]
    norm_num
  have hr : resolveMatches ["S1", "S2"] ((3:ℝ)/5) [[1, 0], [0, 1]] 0 []
      = [⟨"S1", 1, 0⟩, ⟨"S2", 1, 1⟩] := by
    simp only [resolveMatches, hb1, hb2, pyGet]
    norm_num [round4_one]
    decide
  rw [compare_faces]
  norm_num [resolveReport, hm, hr]

theorem compare_faces_evalB :
    compare_faces [[3, 4]] [[8, 15]] ["S1"] ((98823:ℝ)/100000)
      = .ok ⟨[⟨"S1", 4941/5000, 0⟩], 1, 0, 1, 98823/100000⟩ := by
  have hc : cosineRaw [(3:ℝ), 4] [(8:ℝ), 15] = 84/85 := by
    rw [cosineRaw, norm2_34, norm2_815,
      show listDot [(3:ℝ), 4] [(8:ℝ), 15] = 84 by simp [listDot]; norm_num]
    norm_num
  have hm : simMatrix [[(3:ℝ), 4]] [[(8:ℝ), 15]] = [[84/85]] := by
    simp [simMatrix, hc]
  have hb : bestMatch [(84:ℝ)/85] = (0, 84/85) := by
    simp only [bestMatch, bestMatchAux]
    norm_num
  have hr : resolveMatches ["S1"] ((98823:ℝ)/100000) [[84/85]] 0 []
      = [⟨"S1", 4941/5000, 0⟩] := by
    simp only [resolveMatches, hb, pyGet]
    norm_num [round4_8485]
  rw [compare_faces]
  norm_num [resolveReport, hm, hr]

theorem length_filter_unassigned_pre (N : ℕ) (S : List ℕ) (hnd : S.Nodup)
    (hlt : ∀ x ∈ S, x < N) :
    ((List.range N).filter (fun i => S.all (fun s => s != i))).length + S.length = N := by
  have hsplit : (List.range N).length
      = ((List.range N).filter (fun i => S.all (fun s => s != i))).length
        + ((List.range N).filter (fun i => !(S.all fun s => s != i))).length :=
    List.length_eq_length_filter_add _
  have hneg : List.Perm ((List.range N).filter (fun i => !(S.all fun s => s != i))) S := by
    refine (List.perm_ext_iff_of_nodup ((List.nodup_range N).filter _) hnd).2 ?_
    intro a
    constructor
    · intro ha
      have hmem := List.mem_filter.1 ha
      have hfalse : (S.all fun s => s != a) = false := by
        simpa using hmem.2
      obtain ⟨x, hx, hpx⟩ := List.all_eq_false.1 hfalse
      have hxa : x = a := by simpa using hpx
      exact hxa ▸ hx
    · intro ha
      refine List.mem_filter.2 ⟨List.mem_range.2 (hlt a ha), ?_⟩
      simp only [Bool.not_eq_true']
      exact List.all_eq_false.2 ⟨a, ha, by simp⟩
  have hlen := hneg.length_eq
  rw [List.length_range] at hsplit
  omega

theorem all_map_faceIndex {α : Type} (ms : List (MatchAssignment α)) (i : ℕ) :
    ((ms.map (fun m => m.faceIndex)).all (fun s => s != i))
      = ms.all (fun m => m.faceIndex != i) := by
  induction ms with
  | nil => rfl
  | cons x xs ih => simp [List.all_cons, ih]

theorem length_filter_unassigned {α : Type} (N : ℕ) (ms : List (MatchAssignment α))
    (hnd : (ms.map (fun m => m.faceIndex)).Nodup)
    (hlt : ∀ m ∈ ms, m.faceIndex < N) :
    ((List.range N).filter
      (fun i => ms.all (fun m => m.faceIndex != i))).length + ms.length = N := by
  have h := length_filter_unassigned_pre N (ms.map fun m => m.faceIndex) hnd (by
    intro x hx
    obtain ⟨m, hm, rfl⟩ := List.mem_map.1 hx
    exact hlt m hm)
  have hpred : ∀ i ∈ List.range N,
      ((ms.map (fun m => m.faceIndex)).all (fun s => s != i))
        = ms.all (fun m => m.faceIndex != i) :=
    fun i _ => all_map_faceIndex ms i
  rw [List.filter_congr hpred, List.length_map] at h
  exact h

/-- C1: the match resolver processes detected faces in ascending index order
(conjunct three: the assignment list is strictly increasing in face index),
considers only the single best-scoring roster entry per face, never falling
back to the second-best candidate when the best score is below the threshold
or its student is already consumed (conjunct two: such a face is skipped
outright), and on the documented scenario — face 0 scoring 0.9 on S0, face 1
scoring 0.95 on S0 and 0.8 on S1, threshold 0.6 — face 0 is matched to S0 and
face 1 stays unmatched even though S1 clears the threshold (conjunct one). -/
theorem round4_q910 : round4 ((9:ℚ)/10) = 9/10 := by
  rw [round4, show round ((9:ℚ)/10 * 10000) = 9000 by
    rw [round_eq]; exact Int.floor_eq_iff.2 (by norm_num)]
  norm_num

theorem c1_greedy_policy :
    (resolveReport ([[9/10, 1/2], [19/20, 4/5]] : List (List ℚ)) ["S0", "S1"] (3/5)
      = ⟨[⟨"S0", 9/10, 0⟩], 1, 1, 2, 3/5⟩)
    ∧ (∀ (ids matched : List String) (τ : ℚ) (row : List ℚ)
        (rest : List (List ℚ)) (k : ℕ),
        (bestMatch row).2 < τ ∨ pyGet ids (bestMatch row).1 ∈ matched →
        resolveMatches ids τ (row :: rest) k matched
          = resolveMatches ids τ rest (k + 1) matched)
    ∧ (∀ (ids : List String) (τ : ℚ) (sims : List (List ℚ)),
        (resolveMatches ids τ sims 0 []).Pairwise
          (fun m m' => m.faceIndex < m'.faceIndex)) := by
  refine ⟨?_, ?_, ?_⟩
  · have hb1 : bestMatch [(9:ℚ)/10, 1/2] = (0, 9/10) := by
      simp only [bestMatch, bestMatchAux]
      norm_num
    have hb2 : bestMatch [(19:ℚ)/20, 4/5] = (0, 19/20) := by
      simp only [bestMatch, bestMatchAux]
      norm_num
    have hr : resolveMatches ["S0", "S1"] ((3:ℚ)/5) [[9/10, 1/2], [19/20, 4/5]] 0 []
        = [⟨"S0", 9/10, 0⟩] := by
      simp only [resolveMatches, hb1, hb2, pyGet]
      norm_num [round4_q910]
    simp only [resolveReport]
    rw [hr]
    norm_num
  · intro ids matched τ row rest k h
    exact resolveMatches_skip h
  · intro ids τ sims
    exact resolveMatches_pairwise_faceIndex sims 0 []

theorem c1_greedy_policy_witness :
    resolveMatches ["S0"] ((3:ℚ)/5) [[1/2]] 0 [] = [] := by
  have h := c1_greedy_policy.2.1 ["S0"] [] (3/5) [1/2] [] 0 (Or.inl (by
    simp only [bestMatch, bestMatchAux]
    norm_num))
  simpa [resolveMatches] using h

/-- C2: in every reconciliation result produced by the matching operation,
each detected face index appears in at most one assignment and each student id
appears in at most one assignment, for every input of detected embeddings,
roster embeddings, student ids and threshold. -/
theorem c2_injective_matching (detected reference : List (List ℝ))
    (ids : List String) (τ : ℝ) (r : Report ℝ)
    (h : compare_faces detected reference ids τ = .ok r) :
    r.matchList.Pairwise
      (fun m m' => m.faceIndex ≠ m'.faceIndex ∧ m.studentId ≠ m'.studentId) := by
  rw [compare_faces] at h
  split at h
  · exact absurd h (by simp)
  · split at h
    · exact absurd h (by simp)
    · split at h
      · cases h; simp
      · split at h
        · exact absurd h (by simp)
        · cases h
          have h1 := @resolveMatches_pairwise_faceIndex ℝ _ _ ids τ
            (simMatrix detected reference) 0 []
          have h2 := @resolveMatches_pairwise_studentId ℝ _ _ ids τ
            (simMatrix detected reference) 0 []
          exact (h1.imp fun hx => Nat.ne_of_lt hx).and h2

theorem c2_injective_matching_witness :
    ([⟨"S1", 1, 0⟩, ⟨"S2", 1, 1⟩] : List (MatchAssignment ℝ)).Pairwise
      (fun m m' => m.faceIndex ≠ m'.faceIndex ∧ m.studentId ≠ m'.studentId) := by
  have h := c2_injective_matching [[1, 0], [0, 1]] [[1, 0], [0, 1]] ["S1", "S2"]
    (3/5) _ compare_faces_evalA
  exact h

/-- C3: for all valid inputs, the report satisfies
`totalMatched + unmatchedCount = totalDetected`, where the unmatched count is
moreover exactly the number of detected-face indices that appear in no
assignment. -/
theorem c3_report_counts (detected reference : List (List ℝ)) (ids : List String)
    (τ : ℝ) (r : Report ℝ) (h : compare_faces detected reference ids τ = .ok r) :
    (r.totalMatches : ℤ) + r.unmatchedFaces = r.totalDetected ∧
    r.unmatchedFaces = (((List.range r.totalDetected).filter
      (fun i => r.matchList.all (fun m => m.faceIndex != i))).length : ℤ) := by
  rw [compare_faces] at h
  split at h
  · exact absurd h (by simp)
  · split at h
    · exact absurd h (by simp)
    · split at h
      · cases h; exact ⟨by simp, by simp⟩
      · split at h
        · exact absurd h (by simp)
        · cases h
          constructor
          · simp only [resolveReport]
            omega
          · simp only [resolveReport]
            have hpw := @resolveMatches_pairwise_faceIndex ℝ _ _ ids τ
              (simMatrix detected reference) 0 []
            have hnd : ((resolveMatches ids τ (simMatrix detected reference) 0 []).map
                (fun m => m.faceIndex)).Nodup :=
              List.pairwise_map.2 (hpw.imp fun hx => Nat.ne_of_lt hx)
            have hcount := length_filter_unassigned (simMatrix detected reference).length
              (resolveMatches ids τ (simMatrix detected reference) 0 []) hnd
              (fun m hm => by have := mem_resolveMatches_faceIndex hm; omega)
            omega

theorem c3_report_counts_witness :
    ((2 : ℕ) : ℤ) + 0 = ((2 : ℕ) : ℤ) ∧
    (0 : ℤ) = (((List.range 2).filter
      (fun i => ([⟨"S1", 1, 0⟩, ⟨"S2", 1, 1⟩] : List (MatchAssignment ℝ)).all
        (fun m => m.faceIndex != i))).length : ℤ) := by
  have h := c3_report_counts [[1, 0], [0, 1]] [[1, 0], [0, 1]] ["S1", "S2"]
    (3/5) _ compare_faces_evalA
  exact h

/-- C4: whenever every detected embedding has dimension `dDim`, every
reference embedding has dimension `rDim`, and the two differ, the matching
operation fails with a dimension-mismatch error carrying both dimensions —
the result is exactly that error, so no similarity is scored and neither side
is padded or truncated. -/
theorem c4_dimension_mismatch (detected reference : List (List ℝ))
    (ids : List String) (τ : ℝ) (dDim rDim : ℕ) (hd : detected ≠ [])
    (hr : reference ≠ []) (hi : ids ≠ []) (hlen : reference.length = ids.length)
    (hdd : ∀ e ∈ detected, e.length = dDim) (hrd : ∀ e ∈ reference, e.length = rDim)
    (hne : dDim ≠ rDim) :
    compare_faces detected reference ids τ = .error (.dimensionMismatch dDim rDim) := by
  obtain ⟨d0, drest, rfl⟩ := List.exists_cons_of_ne_nil hd
  obtain ⟨r0, rrest, rfl⟩ := List.exists_cons_of_ne_nil hr
  obtain ⟨i0, irest, rfl⟩ := List.exists_cons_of_ne_nil hi
  have hd0 : d0.length = dDim := hdd d0 (by simp)
  have hr0 : r0.length = rDim := hrd r0 (by simp)
  rw [compare_faces]
  rw [if_neg (by simp), if_neg (by simp [hlen]), if_neg (by simp),
    if_pos (by simpa [hd0, hr0] using hne)]
  simp [hd0, hr0]

theorem c4_dimension_mismatch_witness :
    compare_faces [[1, 2]] [[1, 2, 3]] ["S1"] ((3:ℝ)/5)
      = .error (.dimensionMismatch 2 3) := by
  refine c4_dimension_mismatch [[1, 2]] [[1, 2, 3]] ["S1"] (3/5) 2 3
    (by simp) (by simp) (by simp) (by simp) ?_ ?_ (by decide)
  · intro e he
    simp only [List.mem_singleton] at he
    subst he
    rfl
  · intro e he
    simp only [List.mem_singleton] at he
    subst he
    rfl

/-- C8 (amended): every assignment returned by the matching operation has an
underlying similarity at least the supplied threshold, and the stored
confidence is that similarity rounded to four decimal places, hence at least
the threshold minus `1/20000` (but possibly below the threshold itself). -/
theorem c8_threshold_amended (detected reference : List (List ℝ))
    (ids : List String) (τ : ℝ) (r : Report ℝ)
    (h : compare_faces detected reference ids τ = .ok r)
    (m : MatchAssignment ℝ) (hm : m ∈ r.matchList) :
    ∃ s : ℝ, τ ≤ s ∧ m.confidence = round4 s ∧ τ - 1/20000 ≤ m.confidence := by
  rw [compare_faces] at h
  split at h
  · exact absurd h (by simp)
  · split at h
    · exact absurd h (by simp)
    · split at h
      · cases h; simp at hm
      · split at h
        · exact absurd h (by simp)
        · cases h
          obtain ⟨s, hs, hconf⟩ := mem_resolveMatches_confidence hm
          refine ⟨s, hs, hconf, ?_⟩
          have hb := abs_le.1 (@round4_bound ℝ _ _ s)
          rw [hconf]
          have := hb.1
          linarith

theorem c8_threshold_amended_witness :
    ∃ s : ℝ, (3:ℝ)/5 ≤ s ∧ (1:ℝ) = round4 s ∧ (3:ℝ)/5 - 1/20000 ≤ 1 := by
  have h := c8_threshold_amended [[1, 0], [0, 1]] [[1, 0], [0, 1]] ["S1", "S2"]
    (3/5) _ compare_faces_evalA ⟨"S1", 1, 0⟩ (by simp)
  exact h

/-- C8 (counterexample): with detected embedding `[3,4]`, reference `[8,15]`
and threshold `0.98823`, the raw similarity `84/85 ≈ 0.988235` passes the
threshold but the returned confidence is the rounded value
`0.9882 = 4941/5000`, which is strictly below the supplied threshold — so not
every returned `MatchAssignment` has score at least the threshold. -/
theorem c8_threshold_counterexample :
    compare_faces [[3, 4]] [[8, 15]] ["S1"] ((98823:ℝ)/100000)
        = .ok ⟨[⟨"S1", 4941/5000, 0⟩], 1, 0, 1, 98823/100000⟩
      ∧ (4941:ℝ)/5000 < 98823/100000 :=
  ⟨compare_faces_evalB, by norm_num⟩

theorem norm2_zero_vec : norm2 [(0:ℝ), 0] = 0 := by
  rw [norm2, show listDot [(0:ℝ), 0] [(0:ℝ), 0] = 0 by simp [listDot], Real.sqrt_zero]

theorem norm2_one : norm2 [(1:ℝ)] = 1 := by
  rw [norm2, show listDot [(1:ℝ)] [(1:ℝ)] = 1 by simp [listDot], Real.sqrt_one]

theorem norm2_negone : norm2 [(-1:ℝ)] = 1 := by
  rw [norm2, show listDot [(-1:ℝ)] [(-1:ℝ)] = 1 by simp [listDot], Real.sqrt_one]

/-- C5 (counterexample): the inline similarity of `compare_faces`
(`ai_service/main.py`) has no zero-norm guard: on the zero vector `[0,0]`
against `[3,4]` both the numerator and the denominator are `0`, numpy's
division yields NaN, and the scorer does not return `0.0`. -/
theorem c5_zero_norm_counterexample :
    np_cosine [0, 0] [3, 4] = FloatVal.nan
      ∧ FloatVal.nan ≠ FloatVal.finite 0 := by
  constructor
  · rw [np_cosine, norm2_zero_vec, zero_mul, if_pos rfl,
      show listDot [(0:ℝ), 0] [(3:ℝ), 4] = 0 by simp [listDot], if_pos rfl]
  · intro h
    exact FloatVal.noConfusion h

/-- C5 (amended): the zero-guarded scorer `calculate_cosine_similarity` of
`ai-service/utils.py` returns `0.0` whenever either vector has zero norm and,
being total, never raises; the inline scorer of `compare_faces`
(`ai_service/main.py`) has no such guard and instead produces a NaN score on
zero-norm input (also without raising an exception). -/
theorem c5_zero_norm_amended :
    (∀ a b : List ℝ, norm2 a = 0 ∨ norm2 b = 0 →
      Utils.calculate_cosine_similarity a b = 0)
    ∧ (∀ a b : List ℝ, norm2 a = 0 ∨ norm2 b = 0 →
      np_cosine a b = FloatVal.nan) := by
  constructor
  · intro a b h
    rw [Utils.calculate_cosine_similarity, if_pos h]
  · intro a b h
    have hd : listDot a b = 0 := by
      rcases h with h | h
      · exact listDot_eq_zero_left h
      · exact listDot_eq_zero_right h
    have hz : norm2 a * norm2 b = 0 := by
      rcases h with h | h
      · rw [h, zero_mul]
      · rw [h, mul_zero]
    rw [np_cosine, if_pos hz, if_pos hd]

theorem c5_zero_norm_amended_witness :
    Utils.calculate_cosine_similarity [0, 0] [3, 4] = 0
      ∧ np_cosine [0, 0] [3, 4] = FloatVal.nan :=
  ⟨c5_zero_norm_amended.1 [0, 0] [3, 4] (Or.inl norm2_zero_vec),
   c5_zero_norm_amended.2 [0, 0] [3, 4] (Or.inl norm2_zero_vec)⟩

/-- C6 (counterexample): `calculate_cosine_similarity` of
`ai_service/app/utils/similarity.py` clamps the cosine into `[0,1]`: for the
embeddings `[1]` and `[-1]` (nonzero norms) the raw cosine
`dot/(‖a‖·‖b‖)` equals `-1`, but the scorer returns `0 ≠ -1`. -/
theorem c6_clamp_counterexample :
    AppSim.calculate_cosine_similarity [1] [-1] = 0
      ∧ listDot [1] [-1] / (norm2 [1] * norm2 [-1]) = -1
      ∧ (0:ℝ) ≠ -1 := by
  have hd : listDot [(1:ℝ)] [(-1:ℝ)] = -1 := by simp [listDot]
  refine ⟨?_, ?_, by norm_num⟩
  · rw [AppSim.calculate_cosine_similarity, AppSim.sklearn_cosine,
      if_neg (by rw [norm2_one, norm2_negone]; norm_num), hd, norm2_one, norm2_negone]
    norm_num
  · rw [hd, norm2_one, norm2_negone]
    norm_num

/-- C6 (amended): for nonzero-norm inputs the scorer of `ai-service/utils.py`
returns exactly `dot/(‖a‖·‖b‖)`, a value always in `[-1,1]`, with no
rescaling; the scorer of `ai_service/app/utils/similarity.py` instead clamps
the cosine into `[0,1]`, returning `0` whenever the raw value is negative. -/
theorem c6_cosine_amended :
    (∀ a b : List ℝ, norm2 a ≠ 0 → norm2 b ≠ 0 →
      Utils.calculate_cosine_similarity a b = listDot a b / (norm2 a * norm2 b)
      ∧ -1 ≤ Utils.calculate_cosine_similarity a b
      ∧ Utils.calculate_cosine_similarity a b ≤ 1)
    ∧ (∀ a b : List ℝ,
      0 ≤ AppSim.calculate_cosine_similarity a b
      ∧ AppSim.calculate_cosine_similarity a b ≤ 1
      ∧ (AppSim.sklearn_cosine a b < 0 →
          AppSim.calculate_cosine_similarity a b = 0)) := by
  constructor
  · intro a b ha hb
    have heq : Utils.calculate_cosine_similarity a b
        = listDot a b / (norm2 a * norm2 b) := by
      rw [Utils.calculate_cosine_similarity, if_neg]
      rintro (h | h)
      · exact ha h
      · exact hb h
    have hpos : 0 < norm2 a * norm2 b :=
      mul_pos (lt_of_le_of_ne (norm2_nonneg a) (Ne.symm ha))
        (lt_of_le_of_ne (norm2_nonneg b) (Ne.symm hb))
    have habs : |listDot a b / (norm2 a * norm2 b)| ≤ 1 := by
      rw [abs_div, abs_of_pos hpos, div_le_one hpos]
      exact abs_listDot_le a b
    exact ⟨heq, by rw [heq]; exact (abs_le.1 habs).1, by rw [heq]; exact (abs_le.1 habs).2⟩
  · intro a b
    refine ⟨le_max_left 0 _, ?_, ?_⟩
    · rw [AppSim.calculate_cosine_similarity]
      exact max_le (by norm_num) (min_le_left _ _)
    · intro hneg
      rw [AppSim.calculate_cosine_similarity,
        min_eq_right (le_of_lt (lt_of_lt_of_le hneg zero_le_one)),
        max_eq_left (le_of_lt hneg)]

theorem norm2_43 : norm2 [(4:ℝ), 3] = 5 := by
  rw [norm2, show listDot [(4:ℝ), 3] [(4:ℝ), 3] = 25 by simp [listDot]; norm_num,
    show (25:ℝ) = 5 ^ 2 by norm_num, Real.sqrt_sq (by norm_num : (0:ℝ) ≤ 5)]

theorem c6_cosine_amended_witness :
    Utils.calculate_cosine_similarity [3, 4] [4, 3]
        = listDot [3, 4] [4, 3] / (norm2 [3, 4] * norm2 [4, 3])
      ∧ AppSim.calculate_cosine_similarity [1] [-1] = 0 := by
  refine ⟨(c6_cosine_amended.1 [3, 4] [4, 3] (by rw [norm2_34]; norm_num)
    (by rw [norm2_43]; norm_num)).1, ?_⟩
  have hskl : AppSim.sklearn_cosine [1] [-1] < 0 := by
    rw [AppSim.sklearn_cosine, if_neg (by rw [norm2_one, norm2_negone]; norm_num),
      show listDot [(1:ℝ)] [(-1:ℝ)] = -1 by simp [listDot], norm2_one, norm2_negone]
    norm_num
  exact (c6_cosine_amended.2 [1] [-1]).2.2 hskl

/-- C7: the confidence classifier is a total function of the score alone that
returns Present for score at least 0.85, Uncertain for scores in
[0.70, 0.85), Low_Confidence for scores in [0.60, 0.70), and Not_Recognized
below 0.60 — four ordered, non-overlapping bands. -/
theorem c7_confidence_tiers (score : ℝ) :
    ((0.85:ℝ) ≤ score →
      AppSim.FaceMatchingConfig.get_status_from_confidence score = "Present")
    ∧ ((0.70:ℝ) ≤ score → score < 0.85 →
      AppSim.FaceMatchingConfig.get_status_from_confidence score = "Uncertain")
    ∧ ((0.60:ℝ) ≤ score → score < 0.70 →
      AppSim.FaceMatchingConfig.get_status_from_confidence score = "Low_Confidence")
    ∧ (score < (0.60:ℝ) →
      AppSim.FaceMatchingConfig.get_status_from_confidence score = "Not_Recognized") := by
  simp only [AppSim.FaceMatchingConfig.get_status_from_confidence,
    AppSim.FaceMatchingConfig.HIGH_CONFIDENCE_THRESHOLD,
    AppSim.FaceMatchingConfig.MEDIUM_CONFIDENCE_THRESHOLD,
    AppSim.FaceMatchingConfig.LOW_CONFIDENCE_THRESHOLD]
  refine ⟨?_, ?_, ?_, ?_⟩
  · intro h
    rw [if_pos h]
  · intro h1 h2
    rw [if_neg (not_le.mpr h2), if_pos h1]
  · intro h1 h2
    rw [if_neg (not_le.mpr (h2.trans_le (by norm_num))), if_neg (not_le.mpr h2),
      if_pos h1]
  · intro h
    rw [if_neg (not_le.mpr (h.trans_le (by norm_num))),
      if_neg (not_le.mpr (h.trans_le (by norm_num))), if_neg (not_le.mpr h)]

theorem c7_confidence_tiers_witness :
    AppSim.FaceMatchingConfig.get_status_from_confidence 0.9 = "Present"
      ∧ AppSim.FaceMatchingConfig.get_status_from_confidence 0.75 = "Uncertain"
      ∧ AppSim.FaceMatchingConfig.get_status_from_confidence 0.65 = "Low_Confidence"
      ∧ AppSim.FaceMatchingConfig.get_status_from_confidence 0.5 = "Not_Recognized" :=
  ⟨(c7_confidence_tiers 0.9).1 (by norm_num),
   (c7_confidence_tiers 0.75).2.1 (by norm_num) (by norm_num),
   (c7_confidence_tiers 0.65).2.2.1 (by norm_num) (by norm_num),
   (c7_confidence_tiers 0.5).2.2.2 (by norm_num)⟩

/-- C9 (counterexample): an input whose detected embedding contains NaN
passes every check the matching operation performs — the validation stage of
`compare_faces` returns no error on it (indeed `CompareError` has no
invalid-embedding variant), so the operation does not fail with an
InvalidEmbedding error identifying the offending index and side. -/
theorem c9_no_finiteness_check_counterexample :
    compare_faces_checks [[FloatVal.nan, FloatVal.finite 0]]
        [[FloatVal.finite 3, FloatVal.finite 4]] ["S1"] = none
      ∧ FloatVal.isFinite FloatVal.nan = false :=
  ⟨rfl, rfl⟩

/-- C9 (amended): `validate_embedding` returns false for any embedding
containing a non-finite entry, but it is never invoked by the matching
operation: the operation's own checks inspect only shapes, so any
well-shaped input — finite entries or not — passes with no error, and the
entries flow to scoring unchanged rather than being replaced by defaults. -/
theorem c9_finiteness_amended :
    (∀ (e : List FloatVal) (d : ℕ) (v : FloatVal), v ∈ e → v.isFinite = false →
      AppSim.validate_embedding e d = false)
    ∧ (∀ (detected reference : List (List FloatVal)) (ids : List String),
      detected.isEmpty = false → reference.isEmpty = false →
      ids.isEmpty = false → reference.length = ids.length →
      detected.headI.length = reference.headI.length →
      compare_faces_checks detected reference ids = none) := by
  constructor
  · intro e d v hv hfin
    rw [AppSim.validate_embedding,
      show e.all FloatVal.isFinite = false from
        List.all_eq_false.2 ⟨v, hv, by simp [hfin]⟩,
      Bool.and_false]
  · intro detected reference ids h1 h2 h3 h4 h5
    rw [compare_faces_checks, if_neg (by simp [h2, h3]), if_neg (by simp [h4]),
      if_neg (by simp [h1]), if_neg (by simp [h5])]

theorem c9_finiteness_amended_witness :
    AppSim.validate_embedding [FloatVal.nan, FloatVal.finite 0] 2 = false
      ∧ compare_faces_checks [[FloatVal.nan, FloatVal.finite 0]]
          [[FloatVal.finite 3, FloatVal.finite 4]] ["S1"] = none :=
  ⟨c9_finiteness_amended.1 [FloatVal.nan, FloatVal.finite 0] 2 FloatVal.nan
    (List.mem_cons_self _ _) rfl,
   c9_finiteness_amended.2 [[FloatVal.nan, FloatVal.finite 0]]
    [[FloatVal.finite 3, FloatVal.finite 4]] ["S1"] rfl rfl rfl rfl rfl⟩

theorem mergeSort_desc_pairwise {β : Type} (l : List (β × ℝ)) :
    (l.mergeSort (fun x y => decide (y.2 ≤ x.2))).Pairwise
      (fun x y => y.2 ≤ x.2) := by
  have hs : (l.mergeSort (fun x y => decide (y.2 ≤ x.2))).Pairwise
      (fun x y => decide (y.2 ≤ x.2) = true) := by
    apply List.sorted_mergeSort
    · intro a b c hab hbc
      simp only [decide_eq_true_eq] at hab hbc ⊢
      exact le_trans hbc hab
    · intro a b
      simp only [Bool.or_eq_true, decide_eq_true_eq]
      exact le_total b.2 a.2
  exact hs.imp (fun h => of_decide_eq_true h)

/-- C10: `find_best_matches` returns at most `top_k` student-score pairs,
sorted in descending score order, and returns the empty list on an empty
database of embeddings. -/
theorem c10_find_best_matches (query : List ℝ) (db : List (List ℝ))
    (ids : List String) (top_k : ℕ) (method : String) :
    (db = [] → AppSim.find_best_matches query db ids top_k method = [])
    ∧ (AppSim.find_best_matches query db ids top_k method).length ≤ top_k
    ∧ (AppSim.find_best_matches query db ids top_k method).Pairwise
        (fun x y => y.2 ≤ x.2) := by
  refine ⟨?_, ?_, ?_⟩
  · intro h
    subst h
    rfl
  · rw [AppSim.find_best_matches]
    split
    · simp
    · split
      · simp
      · rw [List.length_take]
        exact min_le_left _ _
  · rw [AppSim.find_best_matches]
    split
    · simp
    · split
      · simp
      · exact List.Pairwise.sublist (List.take_sublist _ _)
          (mergeSort_desc_pairwise _)

theorem c10_find_best_matches_witness :
    AppSim.find_best_matches [1] [] ["A"] 3 "cosine" = []
      ∧ (AppSim.find_best_matches [1] [[1]] ["A"] 3 "cosine").length ≤ 3 :=
  ⟨(c10_find_best_matches [1] [] ["A"] 3 "cosine").1 rfl,
   (c10_find_best_matches [1] [[1]] ["A"] 3 "cosine").2.1⟩

end FaceAttend
